import Mathlib

/-!
Shallow embedding of the tuk_convosearch retrieval-augmented query pipeline:
the orchestrator (`app/core/rag_pipeline.py`), the history store
(`app/core/database.py`), the answer generator (`app/core/llm_manager.py`),
the chunker (`app/core/document_processor.py`) and the vector-store id
assignment (`app/core/vector_store.py`).  External collaborators (the ChromaDB
search, the text splitter, the LLM call) are passed in as parameters; machine
floats are modelled by exact rationals.  Python exceptions are modelled with
`Except String`; Python `None` with `Option`.
-/

/-- Value stored in a Python metadata dict: a string or an integer. -/
inductive MetaVal where
  | str (s : String)
  | int (n : Int)
deriving DecidableEq, Repr

/-- Python `dict.get(k)` on a metadata dict modelled as an association list. -/
def dictGet (m : List (String × MetaVal)) (k : String) : Option MetaVal :=
  List.lookup k m

/-- Python `dict.get(k, d)` with a default. -/
def dictGetD (m : List (String × MetaVal)) (k : String) (d : MetaVal) : MetaVal :=
  (List.lookup k m).getD d

/-- Python `d[k] = v`: replace the binding in place, or append a new key. -/
def dictSet (m : List (String × MetaVal)) (k : String) (v : MetaVal) : List (String × MetaVal) :=
  match m with
  | [] => [(k, v)]
  | (k2, v2) :: rest => if k2 = k then (k2, v) :: rest else (k2, v2) :: dictSet rest k v

/-- Python `str(v)` on a metadata value. -/
def pyStr : MetaVal → String
  | .str s => s
  | .int n => toString n

/-- Python `int(x)` on a rational: truncation toward zero. -/
def pyInt (q : ℚ) : Int :=
  if q < 0 then -⌊-q⌋ else ⌊q⌋

/-- Python truthiness of an optional string (`None` and `""` are falsy). -/
def pyTruthy : Option String → Bool
  | none => false
  | some s => !s.isEmpty

/-- Python `max(list)` on a nonempty list of rationals (0 on [], unreachable). -/
def listMax : List ℚ → ℚ
  | [] => 0
  | x :: xs => xs.foldl max x

/-- A retrieved document as formatted by `VectorStoreManager.search`:
content, metadata and a similarity score `1 - distance`. -/
structure RetrievedDoc where
  content : String
  metadata : List (String × MetaVal)
  similarity_score : ℚ
deriving DecidableEq

/-- The threshold filter from `RAGPipeline.process_query`:
`[doc for doc in retrieved_docs if doc["similarity_score"] >= threshold]`. -/
def filterDocs (τ : ℚ) (docs : List RetrievedDoc) : List RetrievedDoc :=
  docs.filter (fun d => decide (τ ≤ d.similarity_score))

/-- The result dict built by `RAGPipeline.process_query`.  The keys
`sources_used` and `conversation_id` appear only in the Answered dict;
`none` in the outer option marks an absent key. -/
structure QueryResult where
  answer : String
  sources : List RetrievedDoc
  confidence : ℚ
  error : Option String
  sources_used : Option Bool := none
  conversation_id : Option (Option String) := none
deriving DecidableEq

/-- Response dict of `LLMManager.generate_response`. -/
structure LLMResponse where
  answer : String
  sources_used : Bool
  error : Option String
deriving DecidableEq

/-- The fixed RAG instruction template of `LLMManager._init_prompt_template`,
with the context and question substituted. -/
def rag_prompt (context question : String) : String :=
  "You are TUK-ConvoSearch, an AI assistant for the Technical University of Kenya. Your purpose is to provide accurate, helpful information to students and staff based ONLY on the provided context.\n\nContext Information:\n"
    ++ context
    ++ "\n\nUser Question: " ++ question
    ++ "\n\nInstructions:\n1. Answer STRICTLY based on the context provided above\n2. If the answer is not in the context, say \"I cannot find specific information about this in the official TUK documents. Please contact the relevant department for assistance.\"\n3. Keep answers concise and clear\n4. If relevant, mention the source document\n5. Format important dates, deadlines, or procedures clearly\n\nAnswer:"

/-- `LLMManager.generate_response`: runs the LLM chain on the prompt; on
success returns the stripped answer with no error, on any exception the
canned apology plus the error string.  `complete` is the external LLM call. -/
def generate_response (complete : String → Except String String)
    (question context : String) : LLMResponse :=
  match complete (rag_prompt context question) with
  | .ok response =>
      { answer := response.trim
        sources_used := !context.isEmpty
        error := none }
  | .error e =>
      { answer := "I apologize, but I encountered an error processing your request. Please try again or contact support."
        sources_used := false
        error := some e }

/-- One block of `RAGPipeline._prepare_context`:
a numbered header naming the source, then the content. -/
def contextBlock (i : Nat) (doc : RetrievedDoc) : String :=
  "Document " ++ Nat.repr (i + 1) ++ " [Source: "
    ++ pyStr (dictGetD doc.metadata "source" (.str "Unknown"))
    ++ "]:\n" ++ doc.content ++ "\n"

/-- `RAGPipeline._prepare_context`: numbered, source-attributed blocks
joined by `\n---\n`. -/
def prepare_context (documents : List RetrievedDoc) : String :=
  String.intercalate "\n---\n" (documents.mapIdx contextBlock)

/-- The conversation dict assembled by `RAGPipeline._save_to_history`
(after the id synthesis, so with a concrete conversation id). -/
structure ConversationData where
  conversation_id : String
  user_id : String
  query : String
  answer : String
  confidence : Int
  sources_used : List (MetaVal × ℚ)
deriving DecidableEq

/-- A row of the `conversations` table (`Conversation` in `database.py`). -/
structure ConversationRecord where
  conversation_id : String
  user_id : String
  query : String
  answer : String
  confidence : Int
  sources_used : List (MetaVal × ℚ)
  created_at : Int
  helpful_feedback : Option Bool
deriving DecidableEq

/-- State of `DatabaseManager`: whether the session factory was initialized,
the configured retention horizon, and the stored rows. -/
structure DBManager where
  sessionInit : Bool
  retentionDays : Int
  records : List ConversationRecord
deriving DecidableEq

/-- Return dict of `DatabaseManager.save_conversation`. -/
structure SaveResult where
  success : Bool
  conversation_id : Option String := none
  id : Option Nat := none
  error : Option String := none
deriving DecidableEq

/-- `DatabaseManager.__init__`: the session factory is initialized only when
`ENABLE_HISTORY` is set; the store starts empty. -/
def mkDatabaseManager (enableHistory : Bool) (retentionDays : Int) : DBManager :=
  { sessionInit := enableHistory, retentionDays := retentionDays, records := [] }

/-- The row inserted by `DatabaseManager.save_conversation` (`created_at`
defaults to the current time, `helpful_feedback` to `None`). -/
def recordOf (data : ConversationData) (now : Int) : ConversationRecord :=
  { conversation_id := data.conversation_id
    user_id := data.user_id
    query := data.query
    answer := data.answer
    confidence := data.confidence
    sources_used := data.sources_used
    created_at := now
    helpful_feedback := none }

/-- `DatabaseManager.save_conversation`: without a session factory it returns
the `Database not initialized` failure dict; otherwise it inserts one row and
reports success. -/
def save_conversation (db : DBManager) (data : ConversationData) (now : Int) :
    DBManager × SaveResult :=
  if db.sessionInit then
    ({ db with records := db.records ++ [recordOf data now] },
     { success := true, conversation_id := some data.conversation_id,
       id := some db.records.length })
  else
    (db, { success := false, error := some "Database not initialized" })

/-- Descending insertion by `created_at` (helper for the `order_by` in
`get_conversation_history`). -/
def insertDesc (r : ConversationRecord) : List ConversationRecord → List ConversationRecord
  | [] => [r]
  | x :: xs => if x.created_at < r.created_at then r :: x :: xs else x :: insertDesc r xs

/-- Sort rows by `created_at` descending. -/
def sortDesc : List ConversationRecord → List ConversationRecord
  | [] => []
  | x :: xs => insertDesc x (sortDesc xs)

/-- `DatabaseManager.get_conversation_history`: empty list without a session
factory; otherwise filter by conversation id when truthy, else by user id
when truthy, order by recency descending, take `limit`. -/
def get_conversation_history (db : DBManager) (conversation_id : Option String)
    (user_id : Option String) (limit : Nat) : List ConversationRecord :=
  if db.sessionInit then
    let q :=
      if pyTruthy conversation_id then
        db.records.filter (fun r => decide (r.conversation_id = conversation_id.getD ""))
      else if pyTruthy user_id then
        db.records.filter (fun r => decide (r.user_id = user_id.getD ""))
      else db.records
    (sortDesc q).take limit
  else []

/-- Set `helpful_feedback` on the first row matching the conversation id;
`none` when no row matches. -/
def setFeedbackFirst (cid : String) (h : Bool) :
    List ConversationRecord → Option (List ConversationRecord)
  | [] => none
  | r :: rest =>
      if r.conversation_id = cid then
        some ({ r with helpful_feedback := some h } :: rest)
      else
        (setFeedbackFirst cid h rest).map (r :: ·)

/-- `DatabaseManager.update_feedback`: `false` without a session factory or
when the conversation id is not found; otherwise updates the row and returns
`true`. -/
def update_feedback (db : DBManager) (conversation_id : String) (helpful : Bool) :
    DBManager × Bool :=
  if db.sessionInit then
    match setFeedbackFirst conversation_id helpful db.records with
    | some rs => ({ db with records := rs }, true)
    | none => (db, false)
  else (db, false)

/-- `DatabaseManager.cleanup_old_conversations`: deletes the rows whose
`created_at` is before `now` minus the configured retention horizon (days,
modelled in seconds).  The Python function logs the deleted count but has no
`return` value: it always returns `None`, modelled as `none`. -/
def cleanup_old_conversations (db : DBManager) (now : Int) : DBManager × Option Nat :=
  if db.sessionInit then
    let cutoff := now - db.retentionDays * 86400
    ({ db with records := db.records.filter (fun r => decide (¬ r.created_at < cutoff)) },
     none)
  else (db, none)

/-- Statistics dict of `DatabaseManager.get_statistics` (the nonempty case). -/
structure DBStats where
  total_conversations : Nat
  helpful_feedback : Nat
  unhelpful_feedback : Nat
  today_conversations : Nat
deriving DecidableEq

/-- `DatabaseManager.get_statistics`: the empty dict (`none`) without a
session factory; otherwise counts, with `startOfToday` the midnight instant
computed from `datetime.utcnow()`. -/
def get_statistics (db : DBManager) (startOfToday : Int) : Option DBStats :=
  if db.sessionInit then
    some { total_conversations := db.records.length
           helpful_feedback := (db.records.filter (fun r => decide (r.helpful_feedback = some true))).length
           unhelpful_feedback := (db.records.filter (fun r => decide (r.helpful_feedback = some false))).length
           today_conversations := (db.records.filter (fun r => decide (startOfToday ≤ r.created_at))).length }
  else none

/-- The configuration fields of `Settings` read by the orchestrator. -/
structure PipelineConfig where
  SIMILARITY_THRESHOLD : ℚ
  ENABLE_HISTORY : Bool
deriving DecidableEq

/-- The conversation dict built inside `RAGPipeline._save_to_history`, given
the already-resolved conversation id string. -/
def conversationDataOf (response : QueryResult) (query cid uid : String) :
    ConversationData :=
  { conversation_id := cid
    user_id := uid
    query := query
    answer := response.answer
    confidence := pyInt (response.confidence * 100)
    sources_used := response.sources.map
      (fun d => (dictGetD d.metadata "source" (.str "Unknown"), d.similarity_score)) }

/-- `RAGPipeline._save_to_history`.  When a db manager is present and history
is enabled, the id is the caller id when truthy, else a fresh timestamp-based id;
`rag_pipeline.py` never imports `datetime`, so a falsy conversation id makes
the `or` fallback raise `NameError`, modelled as the `.error` case.  The
return dict of `save_conversation` is discarded. -/
def save_to_history (cfg : PipelineConfig) (dbPresent : Bool) (response : QueryResult)
    (query : String) (conversation_id : Option String) (user_id : String)
    (db : DBManager) (now : Int) : Except String DBManager :=
  if dbPresent && cfg.ENABLE_HISTORY then
    if pyTruthy conversation_id then
      .ok (save_conversation db
            (conversationDataOf response query (conversation_id.getD "") user_id) now).1
    else
      .error "NameError: name \x27datetime\x27 is not defined"
  else .ok db

/-- The NoEvidence result dict of `RAGPipeline.process_query`. -/
def noEvidenceResponse : QueryResult :=
  { answer := "I couldn\x27t find relevant information in the TUK documents for your query. Please try rephrasing or contact the relevant department."
    sources := []
    confidence := 0
    error := none }

/-- The LowConfidence result dict: canned refusal, the unfiltered candidates
as sources, and the maximum unfiltered similarity as confidence. -/
def lowConfidenceResponse (retrieved : List RetrievedDoc) : QueryResult :=
  { answer := "The information I found doesn\x27t meet the confidence threshold for accuracy. Please consult official sources directly."
    sources := retrieved
    confidence := listMax (retrieved.map (·.similarity_score))
    error := none }

/-- The Answered result dict: the generator answer, the filtered candidates,
their mean similarity, the mirrored generator error, plus the extra
`sources_used` and `conversation_id` keys. -/
def answeredResult (llm_response : LLMResponse) (filtered : List RetrievedDoc)
    (conversation_id : Option String) : QueryResult :=
  { answer := llm_response.answer
    sources := filtered
    confidence := (filtered.map (·.similarity_score)).sum / (filtered.length : ℚ)
    error := llm_response.error
    sources_used := some llm_response.sources_used
    conversation_id := some conversation_id }

/-- The catch-all result dict of the `except` clause in `process_query`. -/
def pipelineErrorResult (e : String) : QueryResult :=
  { answer := "An error occurred while processing your query. Please try again."
    sources := []
    confidence := 0
    error := some e }

/-- `RAGPipeline.process_query`.  `retrieved` is the external
`vector_store.search(query)` result (`search` catches its own errors and
degrades to `[]`); `complete` is the external LLM call.  The whole body runs
inside `try`, so an exception from the history step lands in the catch-all. -/
def process_query (cfg : PipelineConfig) (dbPresent : Bool) (db : DBManager)
    (retrieved : List RetrievedDoc) (complete : String → Except String String)
    (query : String) (conversation_id : Option String) (user_id : String)
    (now : Int) : QueryResult × DBManager :=
  let tryBody : Except String (QueryResult × DBManager) :=
    if retrieved.isEmpty then
      (save_to_history cfg dbPresent noEvidenceResponse query conversation_id user_id db now).map
        (fun db2 => (noEvidenceResponse, db2))
    else
      let filtered := filterDocs cfg.SIMILARITY_THRESHOLD retrieved
      if filtered.isEmpty then
        let response := lowConfidenceResponse retrieved
        (save_to_history cfg dbPresent response query conversation_id user_id db now).map
          (fun db2 => (response, db2))
      else
        let context := prepare_context filtered
        let llm_response := generate_response complete query context
        let result := answeredResult llm_response filtered conversation_id
        (save_to_history cfg dbPresent result query conversation_id user_id db now).map
          (fun db2 => (result, db2))
  match tryBody with
  | .ok rdb => rdb
  | .error e => (pipelineErrorResult e, db)

/-- A chunk as produced by `DocumentProcessor.chunk_document` (a langchain
`Document`): page content plus metadata. -/
structure Chunk where
  page_content : String
  metadata : List (String × MetaVal)
deriving DecidableEq

/-- The per-chunk metadata update in `DocumentProcessor.chunk_document`:
the update call stamping chunk_id and total_chunks onto chunk.metadata. -/
def chunkStamp (n i : Nat) (c : Chunk) : Chunk :=
  { c with metadata :=
      dictSet (dictSet c.metadata "chunk_id" (.int i)) "total_chunks" (.int n) }

/-- `DocumentProcessor.chunk_document`: blank text yields no chunks
(`not text.strip()` holds exactly when every character is whitespace);
otherwise the external splitter produces the chunk texts, each chunk
carries a copy of the input metadata updated with `chunk_id` (its position)
and `total_chunks`. -/
def chunk_document (splitText : String → List String) (text : String)
    (metadata : List (String × MetaVal)) : List Chunk :=
  if text.data.all (fun c => c.isWhitespace) then []
  else
    let chunks := (splitText text).map (fun s => Chunk.mk s metadata)
    chunks.mapIdx (chunkStamp chunks.length)

/-- A document handed to `VectorStoreManager.add_documents`. -/
structure VSDoc where
  text : String
  metadata : List (String × MetaVal)
deriving DecidableEq

/-- The id list computed in `VectorStoreManager.add_documents`:
`[f"doc_{i}" for i in range(len(documents))]`. -/
def add_documents_ids (documents : List VSDoc) : List String :=
  (List.range documents.length).map (fun i => "doc_" ++ Nat.repr i)

/-! ### Helper lemmas about the history step and the orchestrator -/

/-- With no db manager or history disabled, the history step is a no-op. -/
theorem save_to_history_disabled (cfg : PipelineConfig) (dbPresent : Bool)
    (resp : QueryResult) (q : String) (cid : Option String) (uid : String)
    (db : DBManager) (now : Int) (h : (dbPresent && cfg.ENABLE_HISTORY) = false) :
    save_to_history cfg dbPresent resp q cid uid db now = .ok db := by
  simp [save_to_history, h]

/-- With a truthy conversation id the history step never raises. -/
theorem save_to_history_truthy (cfg : PipelineConfig) (dbPresent : Bool)
    (resp : QueryResult) (q : String) (cid : Option String) (uid : String)
    (db : DBManager) (now : Int) (h : pyTruthy cid = true) :
    save_to_history cfg dbPresent resp q cid uid db now =
      .ok (if dbPresent && cfg.ENABLE_HISTORY then
            (save_conversation db (conversationDataOf resp q (cid.getD "") uid) now).1
          else db) := by
  by_cases hd : (dbPresent && cfg.ENABLE_HISTORY) = true
  · simp [save_to_history, hd, h]
  · simp only [Bool.not_eq_true] at hd
    simp [save_to_history, hd]

/-- The history step succeeds whenever the db manager is absent, history is
disabled, or the conversation id is truthy. -/
theorem save_to_history_isOk (cfg : PipelineConfig) (dbPresent : Bool)
    (resp : QueryResult) (q : String) (cid : Option String) (uid : String)
    (db : DBManager) (now : Int)
    (h : dbPresent = false ∨ cfg.ENABLE_HISTORY = false ∨ pyTruthy cid = true) :
    ∃ db2, save_to_history cfg dbPresent resp q cid uid db now = .ok db2 := by
  rcases h with h | h | h
  · exact ⟨db, save_to_history_disabled cfg dbPresent resp q cid uid db now (by simp [h])⟩
  · exact ⟨db, save_to_history_disabled cfg dbPresent resp q cid uid db now (by simp [h])⟩
  · exact ⟨_, save_to_history_truthy cfg dbPresent resp q cid uid db now h⟩

/-- The only exception the history step can raise is the `NameError` caused
by the missing `datetime` import in `rag_pipeline.py`. -/
theorem save_to_history_error_eq (cfg : PipelineConfig) (dbPresent : Bool)
    (resp : QueryResult) (q : String) (cid : Option String) (uid : String)
    (db : DBManager) (now : Int) (e : String)
    (h : save_to_history cfg dbPresent resp q cid uid db now = .error e) :
    e = "NameError: name \x27datetime\x27 is not defined" := by
  unfold save_to_history at h
  by_cases hd : (dbPresent && cfg.ENABLE_HISTORY) = true
  · by_cases ht : pyTruthy cid = true
    · simp [hd, ht] at h
    · simp [hd, ht] at h
      exact h.symm
  · simp only [Bool.not_eq_true] at hd
    simp [hd] at h

/-- Every run of `process_query` lands in exactly one of the four terminal
shapes: PipelineError (reachable only through the `NameError` of the history
step), NoEvidence, LowConfidence, or Answered. -/
theorem process_query_shape (cfg : PipelineConfig) (dbPresent : Bool) (db : DBManager)
    (retrieved : List RetrievedDoc) (complete : String → Except String String)
    (q : String) (cid : Option String) (uid : String) (now : Int) :
    (process_query cfg dbPresent db retrieved complete q cid uid now).1
        = pipelineErrorResult "NameError: name \x27datetime\x27 is not defined"
    ∨ (retrieved = []
        ∧ (process_query cfg dbPresent db retrieved complete q cid uid now).1 = noEvidenceResponse)
    ∨ (retrieved ≠ [] ∧ filterDocs cfg.SIMILARITY_THRESHOLD retrieved = []
        ∧ (process_query cfg dbPresent db retrieved complete q cid uid now).1
            = lowConfidenceResponse retrieved)
    ∨ (retrieved ≠ [] ∧ filterDocs cfg.SIMILARITY_THRESHOLD retrieved ≠ []
        ∧ (process_query cfg dbPresent db retrieved complete q cid uid now).1
            = answeredResult
                (generate_response complete q
                  (prepare_context (filterDocs cfg.SIMILARITY_THRESHOLD retrieved)))
                (filterDocs cfg.SIMILARITY_THRESHOLD retrieved) cid) := by
  by_cases hr : retrieved.isEmpty
  · rcases hsv : save_to_history cfg dbPresent noEvidenceResponse q cid uid db now with e | db2
    · left
      have he := save_to_history_error_eq cfg dbPresent noEvidenceResponse q cid uid db now e hsv
      subst he
      simp [process_query, hr, hsv, Except.map]
    · right; left
      exact ⟨List.isEmpty_iff.mp hr, by simp [process_query, hr, hsv, Except.map]⟩
  · by_cases hf : (filterDocs cfg.SIMILARITY_THRESHOLD retrieved).isEmpty
    · rcases hsv : save_to_history cfg dbPresent (lowConfidenceResponse retrieved) q cid uid db now with e | db2
      · left
        have he := save_to_history_error_eq cfg dbPresent (lowConfidenceResponse retrieved) q cid uid db now e hsv
        subst he
        simp [process_query, hr, hf, hsv, Except.map]
      · right; right; left
        refine ⟨by simpa using hr, List.isEmpty_iff.mp hf, ?_⟩
        simp [process_query, hr, hf, hsv, Except.map]
    · rcases hsv : save_to_history cfg dbPresent
          (answeredResult
            (generate_response complete q
              (prepare_context (filterDocs cfg.SIMILARITY_THRESHOLD retrieved)))
            (filterDocs cfg.SIMILARITY_THRESHOLD retrieved) cid) q cid uid db now with e | db2
      · left
        have he := save_to_history_error_eq cfg dbPresent _ q cid uid db now e hsv
        subst he
        simp [process_query, hr, hf, hsv, Except.map]
      · right; right; right
        refine ⟨by simpa using hr, by simpa using hf, ?_⟩
        simp [process_query, hr, hf, hsv, Except.map]

/-- With history enabled, an initialized store and a truthy conversation id,
every run appends exactly one `ConversationRecord`, built from the returned
result by `conversationDataOf`. -/
theorem process_query_persists (cfg : PipelineConfig) (db : DBManager)
    (retrieved : List RetrievedDoc) (complete : String → Except String String)
    (q : String) (cid : Option String) (uid : String) (now : Int)
    (hEH : cfg.ENABLE_HISTORY = true) (hcid : pyTruthy cid = true)
    (hinit : db.sessionInit = true) :
    ∃ resp : QueryResult,
      process_query cfg true db retrieved complete q cid uid now
        = (resp,
           { db with records :=
               db.records ++ [recordOf (conversationDataOf resp q (cid.getD "") uid) now] }) := by
  have hsv : ∀ resp : QueryResult,
      save_to_history cfg true resp q cid uid db now
        = .ok ({ db with records :=
            db.records ++ [recordOf (conversationDataOf resp q (cid.getD "") uid) now] }) := by
    intro resp
    rw [save_to_history_truthy cfg true resp q cid uid db now hcid]
    simp [hEH, save_conversation, hinit]
  by_cases hr : retrieved.isEmpty
  · exact ⟨noEvidenceResponse, by simp [process_query, hr, hsv, Except.map]⟩
  · by_cases hf : (filterDocs cfg.SIMILARITY_THRESHOLD retrieved).isEmpty
    · exact ⟨lowConfidenceResponse retrieved,
        by simp [process_query, hr, hf, hsv, Except.map]⟩
    · exact ⟨answeredResult
          (generate_response complete q
            (prepare_context (filterDocs cfg.SIMILARITY_THRESHOLD retrieved)))
          (filterDocs cfg.SIMILARITY_THRESHOLD retrieved) cid,
        by simp [process_query, hr, hf, hsv, Except.map]⟩

/-- When the history step cannot raise, the returned result is exactly the
terminal state the gating reached. -/
theorem process_query_result_of_safe (cfg : PipelineConfig) (dbPresent : Bool)
    (db : DBManager) (retrieved : List RetrievedDoc)
    (complete : String → Except String String) (q : String) (cid : Option String)
    (uid : String) (now : Int)
    (hsafe : dbPresent = false ∨ cfg.ENABLE_HISTORY = false ∨ pyTruthy cid = true) :
    (process_query cfg dbPresent db retrieved complete q cid uid now).1
      = if retrieved.isEmpty then noEvidenceResponse
        else if (filterDocs cfg.SIMILARITY_THRESHOLD retrieved).isEmpty then
          lowConfidenceResponse retrieved
        else
          answeredResult
            (generate_response complete q
              (prepare_context (filterDocs cfg.SIMILARITY_THRESHOLD retrieved)))
            (filterDocs cfg.SIMILARITY_THRESHOLD retrieved) cid := by
  by_cases hr : retrieved.isEmpty
  · obtain ⟨db2, hsv⟩ := save_to_history_isOk cfg dbPresent noEvidenceResponse q cid uid db now hsafe
    simp [process_query, hr, hsv, Except.map]
  · by_cases hf : (filterDocs cfg.SIMILARITY_THRESHOLD retrieved).isEmpty
    · obtain ⟨db2, hsv⟩ := save_to_history_isOk cfg dbPresent (lowConfidenceResponse retrieved) q cid uid db now hsafe
      simp [process_query, hr, hf, hsv, Except.map]
    · obtain ⟨db2, hsv⟩ := save_to_history_isOk cfg dbPresent
        (answeredResult
          (generate_response complete q
            (prepare_context (filterDocs cfg.SIMILARITY_THRESHOLD retrieved)))
          (filterDocs cfg.SIMILARITY_THRESHOLD retrieved) cid) q cid uid db now hsafe
      simp [process_query, hr, hf, hsv, Except.map]

/-! ### Concrete fixtures -/

/-- Default-style configuration with history enabled (threshold 0.7). -/
def cfgHist : PipelineConfig := { SIMILARITY_THRESHOLD := 7/10, ENABLE_HISTORY := true }

/-- Same configuration with history disabled. -/
def cfgNoHist : PipelineConfig := { SIMILARITY_THRESHOLD := 7/10, ENABLE_HISTORY := false }

/-- An initialized, empty history store with a 30-day horizon. -/
def dbInit : DBManager := mkDatabaseManager true 30

/-- An LLM stub that always answers. -/
def okLLM : String → Except String String := fun _ => .ok "Fee is 70,000"

/-- An LLM stub that always fails. -/
def badLLM : String → Except String String := fun _ => .error "LLM connection failed"

/-- Retrieved candidate with similarity 0.9. -/
def docA : RetrievedDoc :=
  { content := "a", metadata := [("source", .str "fees.pdf")], similarity_score := 9/10 }

/-- Retrieved candidate with similarity 0.8. -/
def docB : RetrievedDoc :=
  { content := "b", metadata := [("source", .str "fees.pdf")], similarity_score := 4/5 }

/-- Retrieved candidate with similarity 0.75. -/
def docC : RetrievedDoc :=
  { content := "c", metadata := [("source", .str "fees.pdf")], similarity_score := 3/4 }

/-- Retrieved candidate with similarity 0.5 (below the 0.7 threshold). -/
def docLow : RetrievedDoc :=
  { content := "low", metadata := [("source", .str "misc.pdf")], similarity_score := 1/2 }

/-! ### Claims -/

/-- C1: with history enabled and no caller-supplied conversation id, the
history-write step raises (`datetime` is never imported in
`rag_pipeline.py`), the catch-all swallows the terminal NoEvidence result
and returns the generic apology instead, and nothing is persisted — so a
failure in the history-write step does alter the returned QueryResult,
refuting the claim and matching the spec intent (code bug). -/
theorem C1_history_failure_alters_result :
    (process_query cfgHist true dbInit [] okLLM "fees" none "anonymous" 0).1
        = pipelineErrorResult "NameError: name \x27datetime\x27 is not defined"
    ∧ (process_query cfgHist true dbInit [] okLLM "fees" none "anonymous" 0).1
        ≠ noEvidenceResponse
    ∧ (process_query cfgHist true dbInit [] okLLM "fees" none "anonymous" 0).2.records = [] := by
  have h1 : (process_query cfgHist true dbInit [] okLLM "fees" none "anonymous" 0).1
      = pipelineErrorResult "NameError: name \x27datetime\x27 is not defined" := by
    simp [process_query, save_to_history, cfgHist, pyTruthy, Except.map]
  refine ⟨h1, ?_, ?_⟩
  · rw [h1]
    simp [pipelineErrorResult, noEvidenceResponse]
  · simp [process_query, save_to_history, cfgHist, dbInit, pyTruthy, Except.map,
      mkDatabaseManager]

/-- C2 counterexample: for the Answered run with similarities
[0.9, 0.8, 0.75] the QueryResult confidence is 49/60 ≈ 0.8167, the record
stored by `_save_to_history` carries `int(0.8167 * 100) = 81`, while
`round(0.8167 * 100)` is 82 — the rounding stated by the claim fails on the code. -/
theorem C2_truncation_counterexample :
    ((process_query cfgHist true dbInit [docA, docB, docC] okLLM "fees" (some "c1") "anonymous" 0).2.records.map
        (fun r => r.confidence)) = [81]
    ∧ (process_query cfgHist true dbInit [docA, docB, docC] okLLM "fees" (some "c1") "anonymous" 0).1.confidence
        = 49/60
    ∧ round (((49 : ℚ)/60) * 100) = 82
    ∧ (81 : Int) ≠ 82 := by
  have hc : "c1".isEmpty = false := by decide
  refine ⟨?_, ?_, ?_, by decide⟩
  · norm_num [process_query, save_to_history, cfgHist, dbInit, docA, docB, docC, pyTruthy, hc,
      filterDocs, List.filter, answeredResult, save_conversation, recordOf, conversationDataOf,
      mkDatabaseManager, pyInt, Except.map]
  · norm_num [process_query, save_to_history, cfgHist, dbInit, docA, docB, docC, pyTruthy, hc,
      filterDocs, List.filter, answeredResult, save_conversation, recordOf, conversationDataOf,
      mkDatabaseManager, Except.map]
  · rw [round_eq]
    norm_num

/-- C2 amended: for every QueryResult persisted to history, the stored
integer confidence is the Python `int(...)` truncation of
`confidence * 100`, not its rounding. -/
theorem C2_persisted_confidence_truncation (cfg : PipelineConfig) (db : DBManager)
    (retrieved : List RetrievedDoc) (complete : String → Except String String)
    (q : String) (cid : Option String) (uid : String) (now : Int)
    (hEH : cfg.ENABLE_HISTORY = true) (hcid : pyTruthy cid = true)
    (hinit : db.sessionInit = true) :
    ((process_query cfg true db retrieved complete q cid uid now).2.records.map
        (fun r => r.confidence))
      = (db.records.map (fun r => r.confidence))
        ++ [pyInt ((process_query cfg true db retrieved complete q cid uid now).1.confidence * 100)] := by
  obtain ⟨resp, heq⟩ :=
    process_query_persists cfg db retrieved complete q cid uid now hEH hcid hinit
  rw [heq]
  simp [recordOf, conversationDataOf]

/-- Witness for C2 amended at a concrete Answered run. -/
theorem C2_persisted_confidence_truncation_witness :
    ((process_query cfgHist true dbInit [docA] okLLM "fees" (some "w2") "anonymous" 5).2.records.map
        (fun r => r.confidence))
      = (dbInit.records.map (fun r => r.confidence))
        ++ [pyInt ((process_query cfgHist true dbInit [docA] okLLM "fees" (some "w2") "anonymous" 5).1.confidence * 100)] :=
  C2_persisted_confidence_truncation cfgHist dbInit [docA] okLLM "fees" (some "w2")
    "anonymous" 5 rfl (by decide) rfl

/-- C3 counterexample: a run that reaches generation (one candidate above
threshold) with a failing LLM returns the generator apology with
`error = "LLM connection failed"` and nonempty sources — a non-null error on
a result whose answer was produced by the Answer Generator, refuting
"error implies aborted before generation". -/
theorem C3_error_after_generation_counterexample :
    (process_query cfgNoHist false dbInit [docA] badLLM "fees" none "anonymous" 0).1.error
        = some "LLM connection failed"
    ∧ (process_query cfgNoHist false dbInit [docA] badLLM "fees" none "anonymous" 0).1.sources
        = [docA]
    ∧ (process_query cfgNoHist false dbInit [docA] badLLM "fees" none "anonymous" 0).1.answer
        = "I apologize, but I encountered an error processing your request. Please try again or contact support." := by
  refine ⟨?_, ?_, ?_⟩ <;>
    norm_num [process_query, save_to_history, cfgNoHist, docA, filterDocs, List.filter,
      answeredResult, generate_response, badLLM, Except.map]

/-- C3 amended: a non-null error means the run either hit the catch-all
(PipelineError apology) or reached generation with the Answered result
mirroring the generator-level failure; the NoEvidence and LowConfidence
states never carry an error. -/
theorem C3_error_source (cfg : PipelineConfig) (dbPresent : Bool) (db : DBManager)
    (retrieved : List RetrievedDoc) (complete : String → Except String String)
    (q : String) (cid : Option String) (uid : String) (now : Int)
    (h : (process_query cfg dbPresent db retrieved complete q cid uid now).1.error ≠ none) :
    (process_query cfg dbPresent db retrieved complete q cid uid now).1.answer
        = "An error occurred while processing your query. Please try again."
    ∨ ((process_query cfg dbPresent db retrieved complete q cid uid now).1.sources
          = filterDocs cfg.SIMILARITY_THRESHOLD retrieved
        ∧ (process_query cfg dbPresent db retrieved complete q cid uid now).1.error
            = (generate_response complete q
                (prepare_context (filterDocs cfg.SIMILARITY_THRESHOLD retrieved))).error) := by
  rcases process_query_shape cfg dbPresent db retrieved complete q cid uid now with
    hsh | ⟨_, hsh⟩ | ⟨_, _, hsh⟩ | ⟨_, _, hsh⟩
  · left
    rw [hsh]
    rfl
  · rw [hsh] at h
    simp [noEvidenceResponse] at h
  · rw [hsh] at h
    simp [lowConfidenceResponse] at h
  · right
    rw [hsh]
    exact ⟨rfl, rfl⟩

/-- Witness for C3 amended at a concrete generator-failure run. -/
theorem C3_error_source_witness :
    (process_query cfgNoHist false dbInit [docB] badLLM "fees" none "anonymous" 0).1.answer
        = "An error occurred while processing your query. Please try again."
    ∨ ((process_query cfgNoHist false dbInit [docB] badLLM "fees" none "anonymous" 0).1.sources
          = filterDocs cfgNoHist.SIMILARITY_THRESHOLD [docB]
        ∧ (process_query cfgNoHist false dbInit [docB] badLLM "fees" none "anonymous" 0).1.error
            = (generate_response badLLM "fees"
                (prepare_context (filterDocs cfgNoHist.SIMILARITY_THRESHOLD [docB]))).error) :=
  C3_error_source cfgNoHist false dbInit [docB] badLLM "fees" none "anonymous" 0 (by
    have h1 : (process_query cfgNoHist false dbInit [docB] badLLM "fees" none "anonymous" 0).1.error
        = some "LLM connection failed" := by
      norm_num [process_query, save_to_history, cfgNoHist, docB, filterDocs, List.filter,
        answeredResult, generate_response, badLLM, Except.map]
    rw [h1]
    simp)

/-- C4 counterexample: with history enabled and no conversation id, a query
whose filtered set is nonempty (similarities 0.9/0.8/0.75 against 0.7) does
NOT reach Answered: the missing-`datetime` NameError sends it to the
catch-all, so the result is the generic apology with empty sources,
confidence 0 and a non-null error. -/
theorem C4_history_bug_counterexample :
    filterDocs cfgHist.SIMILARITY_THRESHOLD [docA, docB, docC] = [docA, docB, docC]
    ∧ (process_query cfgHist true dbInit [docA, docB, docC] okLLM "fees" none "anonymous" 0).1.answer
        = "An error occurred while processing your query. Please try again."
    ∧ (process_query cfgHist true dbInit [docA, docB, docC] okLLM "fees" none "anonymous" 0).1.sources
        = []
    ∧ (process_query cfgHist true dbInit [docA, docB, docC] okLLM "fees" none "anonymous" 0).1.confidence
        = 0
    ∧ (process_query cfgHist true dbInit [docA, docB, docC] okLLM "fees" none "anonymous" 0).1.error
        = some "NameError: name \x27datetime\x27 is not defined" := by
  refine ⟨?_, ?_, ?_, ?_, ?_⟩ <;>
    norm_num [process_query, save_to_history, cfgHist, docA, docB, docC, pyTruthy,
      filterDocs, List.filter, Except.map, pipelineErrorResult]

/-- C4 amended: whenever the filtered candidate set is nonempty AND the
history step cannot raise (no db manager, history disabled, or a truthy
caller-supplied conversation id), the pipeline reaches Answered with the
generator answer, the filtered set as sources in order, the mean filtered
similarity as confidence and the mirrored generator error. -/
theorem C4_answered_state (cfg : PipelineConfig) (dbPresent : Bool) (db : DBManager)
    (retrieved : List RetrievedDoc) (complete : String → Except String String)
    (q : String) (cid : Option String) (uid : String) (now : Int)
    (hne : filterDocs cfg.SIMILARITY_THRESHOLD retrieved ≠ [])
    (hsafe : dbPresent = false ∨ cfg.ENABLE_HISTORY = false ∨ pyTruthy cid = true) :
    (process_query cfg dbPresent db retrieved complete q cid uid now).1.answer
        = (generate_response complete q
            (prepare_context (filterDocs cfg.SIMILARITY_THRESHOLD retrieved))).answer
    ∧ (process_query cfg dbPresent db retrieved complete q cid uid now).1.sources
        = filterDocs cfg.SIMILARITY_THRESHOLD retrieved
    ∧ (process_query cfg dbPresent db retrieved complete q cid uid now).1.confidence
        = ((filterDocs cfg.SIMILARITY_THRESHOLD retrieved).map (·.similarity_score)).sum
            / ((filterDocs cfg.SIMILARITY_THRESHOLD retrieved).length : ℚ)
    ∧ (process_query cfg dbPresent db retrieved complete q cid uid now).1.error
        = (generate_response complete q
            (prepare_context (filterDocs cfg.SIMILARITY_THRESHOLD retrieved))).error := by
  have hr : retrieved ≠ [] := by
    intro hnil
    exact hne (by simp [hnil, filterDocs])
  have heq := process_query_result_of_safe cfg dbPresent db retrieved complete q cid uid now hsafe
  rw [if_neg (by simp [hr]), if_neg (by simp [hne])] at heq
  rw [heq]
  exact ⟨rfl, rfl, rfl, rfl⟩

/-- Witness for C4 amended: scenario C with history disabled. -/
theorem C4_answered_state_witness :
    (process_query cfgNoHist false dbInit [docA, docB, docC] okLLM "fees" none "anonymous" 0).1.answer
        = (generate_response okLLM "fees"
            (prepare_context (filterDocs cfgNoHist.SIMILARITY_THRESHOLD [docA, docB, docC]))).answer
    ∧ (process_query cfgNoHist false dbInit [docA, docB, docC] okLLM "fees" none "anonymous" 0).1.sources
        = filterDocs cfgNoHist.SIMILARITY_THRESHOLD [docA, docB, docC]
    ∧ (process_query cfgNoHist false dbInit [docA, docB, docC] okLLM "fees" none "anonymous" 0).1.confidence
        = ((filterDocs cfgNoHist.SIMILARITY_THRESHOLD [docA, docB, docC]).map (·.similarity_score)).sum
            / ((filterDocs cfgNoHist.SIMILARITY_THRESHOLD [docA, docB, docC]).length : ℚ)
    ∧ (process_query cfgNoHist false dbInit [docA, docB, docC] okLLM "fees" none "anonymous" 0).1.error
        = (generate_response okLLM "fees"
            (prepare_context (filterDocs cfgNoHist.SIMILARITY_THRESHOLD [docA, docB, docC]))).error :=
  C4_answered_state cfgNoHist false dbInit [docA, docB, docC] okLLM "fees" none "anonymous" 0
    (by
      have hfil : filterDocs cfgNoHist.SIMILARITY_THRESHOLD [docA, docB, docC]
          = [docA, docB, docC] := by
        norm_num [filterDocs, List.filter, cfgNoHist, docA, docB, docC]
      rw [hfil]
      simp)
    (Or.inl rfl)

/-- C5 counterexample: with history enabled and no conversation id, a query
whose candidates all fall below the threshold does NOT produce the
LowConfidence result: the missing-`datetime` NameError diverts it to the
catch-all apology with empty sources, confidence 0 and a non-null error. -/
theorem C5_history_bug_counterexample :
    filterDocs cfgHist.SIMILARITY_THRESHOLD [docLow] = []
    ∧ [docLow] ≠ ([] : List RetrievedDoc)
    ∧ (process_query cfgHist true dbInit [docLow] okLLM "fees" none "anonymous" 0).1.answer
        = "An error occurred while processing your query. Please try again."
    ∧ (process_query cfgHist true dbInit [docLow] okLLM "fees" none "anonymous" 0).1.sources
        = []
    ∧ (process_query cfgHist true dbInit [docLow] okLLM "fees" none "anonymous" 0).1.confidence
        = 0
    ∧ (process_query cfgHist true dbInit [docLow] okLLM "fees" none "anonymous" 0).1.error
        = some "NameError: name \x27datetime\x27 is not defined" := by
  refine ⟨?_, by simp, ?_, ?_, ?_, ?_⟩ <;>
    norm_num [process_query, save_to_history, cfgHist, docLow, pyTruthy,
      filterDocs, List.filter, Except.map, pipelineErrorResult]

/-- C5 amended: whenever retrieval is nonempty, filtering removes every
candidate AND the history step cannot raise, the result is the canned
below-threshold answer with the full unfiltered candidate set as sources,
the maximum unfiltered similarity as confidence, and no error. -/
theorem C5_low_confidence_state (cfg : PipelineConfig) (dbPresent : Bool) (db : DBManager)
    (retrieved : List RetrievedDoc) (complete : String → Except String String)
    (q : String) (cid : Option String) (uid : String) (now : Int)
    (hne : retrieved ≠ [])
    (hfe : filterDocs cfg.SIMILARITY_THRESHOLD retrieved = [])
    (hsafe : dbPresent = false ∨ cfg.ENABLE_HISTORY = false ∨ pyTruthy cid = true) :
    (process_query cfg dbPresent db retrieved complete q cid uid now).1.answer
        = "The information I found doesn\x27t meet the confidence threshold for accuracy. Please consult official sources directly."
    ∧ (process_query cfg dbPresent db retrieved complete q cid uid now).1.sources = retrieved
    ∧ (process_query cfg dbPresent db retrieved complete q cid uid now).1.confidence
        = listMax (retrieved.map (·.similarity_score))
    ∧ (process_query cfg dbPresent db retrieved complete q cid uid now).1.error = none := by
  have heq := process_query_result_of_safe cfg dbPresent db retrieved complete q cid uid now hsafe
  rw [if_neg (by simp [hne]), if_pos (by simp [hfe])] at heq
  rw [heq]
  exact ⟨rfl, rfl, rfl, rfl⟩

/-- Witness for C5 amended: scenario B with history disabled. -/
theorem C5_low_confidence_state_witness :
    (process_query cfgNoHist false dbInit [docLow] okLLM "fees" none "anonymous" 0).1.answer
        = "The information I found doesn\x27t meet the confidence threshold for accuracy. Please consult official sources directly."
    ∧ (process_query cfgNoHist false dbInit [docLow] okLLM "fees" none "anonymous" 0).1.sources
        = [docLow]
    ∧ (process_query cfgNoHist false dbInit [docLow] okLLM "fees" none "anonymous" 0).1.confidence
        = listMax ([docLow].map (·.similarity_score))
    ∧ (process_query cfgNoHist false dbInit [docLow] okLLM "fees" none "anonymous" 0).1.error
        = none :=
  C5_low_confidence_state cfgNoHist false dbInit [docLow] okLLM "fees" none "anonymous" 0
    (by simp) (by norm_num [filterDocs, List.filter, cfgNoHist, docLow]) (Or.inl rfl)

/-- C6: the filter produced by the orchestrator keeps exactly the candidates
with similarity at or above the threshold, and raising the threshold shrinks
the filtered set (subset, hence no larger). -/
theorem C6_filter_set_and_monotone (τ τ1 τ2 : ℚ) (C : List RetrievedDoc)
    (h : τ1 ≤ τ2) :
    (∀ c, c ∈ filterDocs τ C ↔ c ∈ C ∧ τ ≤ c.similarity_score)
    ∧ filterDocs τ2 C ⊆ filterDocs τ1 C
    ∧ (filterDocs τ2 C).length ≤ (filterDocs τ1 C).length := by
  have hpq : ∀ d : RetrievedDoc,
      decide (τ2 ≤ d.similarity_score) → decide (τ1 ≤ d.similarity_score) := by
    intro d hd
    simp only [decide_eq_true_eq] at hd ⊢
    exact le_trans h hd
  have hs : List.Sublist (filterDocs τ2 C) (filterDocs τ1 C) :=
    List.monotone_filter_right C hpq
  exact ⟨fun c => by simp [filterDocs], hs.subset, hs.length_le⟩

/-- Witness for C6 at threshold 0.7 versus 0.5 on a two-candidate set. -/
theorem C6_filter_set_and_monotone_witness :
    (∀ c, c ∈ filterDocs (7/10) [docA, docLow]
        ↔ c ∈ [docA, docLow] ∧ (7 : ℚ)/10 ≤ c.similarity_score)
    ∧ filterDocs (7/10) [docA, docLow] ⊆ filterDocs (1/2) [docA, docLow]
    ∧ (filterDocs (7/10) [docA, docLow]).length ≤ (filterDocs (1/2) [docA, docLow]).length :=
  C6_filter_set_and_monotone (7/10) (1/2) (7/10) [docA, docLow] (by norm_num)

/-- Input metadata used by the chunker fixtures. -/
def mdFees : List (String × MetaVal) := [("source", .str "handbook.pdf")]

/-- A stub splitter that returns the whole text as one chunk. -/
def splitWhole : String → List String := fun t => [t]

/-- C7 counterexample: the chunker adds the key `chunk_id`, not
`chunk_index` — the produced chunk has no `chunk_index` key at all. -/
theorem C7_chunk_index_key_counterexample :
    ((chunk_document splitWhole "hello" mdFees).map (fun c => dictGet c.metadata "chunk_index"))
        = [none]
    ∧ ((chunk_document splitWhole "hello" mdFees).map (fun c => dictGet c.metadata "chunk_id"))
        = [some (.int 0)]
    ∧ ((chunk_document splitWhole "hello" mdFees).map (fun c => dictGet c.metadata "total_chunks"))
        = [some (.int 1)] := by
  decide

/-- C7 amended: empty text yields no chunks, and the metadata of every
produced chunk is the input metadata updated with `chunk_id` (its position)
and `total_chunks` (the number of chunks). -/
theorem C7_chunk_metadata (splitText : String → List String)
    (metadata : List (String × MetaVal)) :
    chunk_document splitText "" metadata = []
    ∧ ∀ (text : String) (i : Nat) (h : i < (chunk_document splitText text metadata).length),
        ((chunk_document splitText text metadata).get ⟨i, h⟩).metadata
          = dictSet (dictSet metadata "chunk_id" (.int i)) "total_chunks"
              (.int (splitText text).length) := by
  constructor
  · simp [chunk_document]
  · intro text i h
    by_cases hb : text.data.all (fun c => c.isWhitespace)
    · rw [chunk_document, if_pos hb] at h
      exact absurd h (by simp)
    · have heq : chunk_document splitText text metadata
          = List.mapIdx
              (chunkStamp ((splitText text).map (fun s => Chunk.mk s metadata)).length)
              ((splitText text).map (fun s => Chunk.mk s metadata)) := by
        simp only [chunk_document, if_neg hb]
      have hlen : i < ((splitText text).map (fun s => Chunk.mk s metadata)).length := by
        have h2 := h
        rw [heq] at h2
        simpa using h2
      rw [List.get_of_eq heq]
      rw [List.get_mapIdx _ _ i hlen]
      simp [List.get_eq_getElem, chunkStamp]

/-- Witness for C7 amended on a one-chunk split. -/
theorem C7_chunk_metadata_witness :
    chunk_document splitWhole "" mdFees = []
    ∧ ((chunk_document splitWhole "hi" mdFees).get ⟨0, by decide⟩).metadata
        = dictSet (dictSet mdFees "chunk_id" (.int 0)) "total_chunks"
            (.int (splitWhole "hi").length) :=
  ⟨(C7_chunk_metadata splitWhole mdFees).1,
   (C7_chunk_metadata splitWhole mdFees).2 "hi" 0 (by decide)⟩

/-- A record older than the 30-day horizon (timestamped in the first days
of the epoch used by the fixture). -/
def oldRecord (i : Nat) : ConversationRecord :=
  { conversation_id := "old" ++ Nat.repr i, user_id := "u", query := "q", answer := "a",
    confidence := 50, sources_used := [], created_at := (i : Int) * 86400,
    helpful_feedback := none }

/-- A record newer than the 30-day horizon. -/
def newRecord (i : Nat) : ConversationRecord :=
  { conversation_id := "new" ++ Nat.repr i, user_id := "u", query := "q", answer := "a",
    confidence := 50, sources_used := [], created_at := ((99 : Int) + (i : Int)) * 86400,
    helpful_feedback := none }

/-- An initialized store holding 5 records older than 30 days and 2 newer,
as of day 100. -/
def dbSeven : DBManager :=
  { sessionInit := true, retentionDays := 30,
    records := [oldRecord 0, oldRecord 1, oldRecord 2, oldRecord 3, oldRecord 4,
                newRecord 0, newRecord 1] }

/-- C8 counterexample: on the 5-old/2-new store the cleanup deletes the 5
old records and retains exactly the 2 newer ones, but it returns `None`
(the Python function has no return statement), not the count 5. -/
theorem C8_returns_none_counterexample :
    (cleanup_old_conversations dbSeven (100 * 86400)).2 = none
    ∧ (cleanup_old_conversations dbSeven (100 * 86400)).2 ≠ some 5
    ∧ (cleanup_old_conversations dbSeven (100 * 86400)).1.records = [newRecord 0, newRecord 1]
    ∧ dbSeven.records.length = 7
    ∧ (cleanup_old_conversations dbSeven (100 * 86400)).1.records.length = 2 := by
  decide

/-- C8 amended: cleanup on an initialized store deletes exactly the records
older than `now` minus the configured retention horizon, but returns `None`
rather than the number of records deleted (the count is only logged). -/
theorem C8_cleanup_deletes_old_returns_none (db : DBManager) (now : Int)
    (h : db.sessionInit = true) :
    (cleanup_old_conversations db now).2 = none
    ∧ (cleanup_old_conversations db now).1.records
        = db.records.filter (fun r => decide (¬ r.created_at < now - db.retentionDays * 86400))
    ∧ ∀ r, r ∈ (cleanup_old_conversations db now).1.records
        ↔ r ∈ db.records ∧ ¬ r.created_at < now - db.retentionDays * 86400 := by
  refine ⟨?_, ?_, ?_⟩ <;> simp [cleanup_old_conversations, h]

/-- Witness for C8 amended on the 5-old/2-new store. -/
theorem C8_cleanup_deletes_old_returns_none_witness :
    (cleanup_old_conversations dbSeven (100 * 86400)).2 = none
    ∧ (cleanup_old_conversations dbSeven (100 * 86400)).1.records
        = dbSeven.records.filter
            (fun r => decide (¬ r.created_at < 100 * 86400 - dbSeven.retentionDays * 86400))
    ∧ ∀ r, r ∈ (cleanup_old_conversations dbSeven (100 * 86400)).1.records
        ↔ r ∈ dbSeven.records ∧ ¬ r.created_at < 100 * 86400 - dbSeven.retentionDays * 86400 :=
  C8_cleanup_deletes_old_returns_none dbSeven (100 * 86400) rfl

/-- C9: `add_documents` computes ids positionally as `doc_0 … doc_{n-1}`:
the id list has one id per document, the i-th id is `doc_i`, the ids depend
only on the list length, and any two nonempty ingestion calls share the id
`doc_0` — successive calls overlap instead of using fresh unique ids. -/
theorem C9_positional_ids (docs1 docs2 : List VSDoc)
    (hlen : docs1.length = docs2.length) (h1 : docs1 ≠ []) (h2 : docs2 ≠ []) :
    (add_documents_ids docs1).length = docs1.length
    ∧ (∀ i, i < docs1.length → (add_documents_ids docs1).getD i "" = "doc_" ++ Nat.repr i)
    ∧ add_documents_ids docs1 = add_documents_ids docs2
    ∧ "doc_0" ∈ add_documents_ids docs1
    ∧ "doc_0" ∈ add_documents_ids docs2 := by
  have hmem : ∀ docs : List VSDoc, docs ≠ [] → "doc_0" ∈ add_documents_ids docs := by
    intro docs hne
    have h0 : (0 : Nat) ∈ List.range docs.length :=
      List.mem_range.mpr (List.length_pos.mpr hne)
    exact List.mem_map.mpr ⟨0, h0, by decide⟩
  refine ⟨by simp [add_documents_ids], ?_, by simp [add_documents_ids, hlen],
    hmem docs1 h1, hmem docs2 h2⟩
  intro i hi
  simp [add_documents_ids, List.getD_eq_getElem?_getD, List.getElem?_range, hi]

/-- Witness for C9 on two distinct one-document ingestion calls. -/
theorem C9_positional_ids_witness :
    (add_documents_ids [VSDoc.mk "alpha" []]).length = 1
    ∧ (∀ i, i < ([VSDoc.mk "alpha" []] : List VSDoc).length →
        (add_documents_ids [VSDoc.mk "alpha" []]).getD i "" = "doc_" ++ Nat.repr i)
    ∧ add_documents_ids [VSDoc.mk "alpha" []] = add_documents_ids [VSDoc.mk "beta" []]
    ∧ "doc_0" ∈ add_documents_ids [VSDoc.mk "alpha" []]
    ∧ "doc_0" ∈ add_documents_ids [VSDoc.mk "beta" []] :=
  C9_positional_ids [VSDoc.mk "alpha" []] [VSDoc.mk "beta" []] rfl (by simp) (by simp)

/-- C10: with history disabled no session factory is initialized, and every
store operation returns its benign default: `save_conversation` the
not-initialized failure dict leaving the store unchanged,
`get_conversation_history` the empty list, `update_feedback` false, and
`get_statistics` the empty dict. -/
theorem C10_disabled_store_defaults (rd : Int) (data : ConversationData) (now : Int)
    (cid uid : Option String) (limit : Nat) (cid2 : String) (helpful : Bool)
    (startOfToday : Int) :
    (save_conversation (mkDatabaseManager false rd) data now).2.success = false
    ∧ (save_conversation (mkDatabaseManager false rd) data now).2.error
        = some "Database not initialized"
    ∧ (save_conversation (mkDatabaseManager false rd) data now).1 = mkDatabaseManager false rd
    ∧ get_conversation_history (mkDatabaseManager false rd) cid uid limit = []
    ∧ update_feedback (mkDatabaseManager false rd) cid2 helpful
        = (mkDatabaseManager false rd, false)
    ∧ get_statistics (mkDatabaseManager false rd) startOfToday = none := by
  refine ⟨?_, ?_, ?_, ?_, ?_, ?_⟩ <;>
    simp [save_conversation, get_conversation_history, update_feedback, get_statistics,
      mkDatabaseManager]
